/-
  Verification of the supplier-sourcing backend (src/server.js).

  Shallow embedding: strings are Lean `String`s, JS truthiness of optional
  string fields is made explicit, `Math.round` on the (exactly representable)
  ratios occurring here is modelled as exact rational round-half-up, and the
  platform URL parser (`new URL(...).hostname`) is a parameter of the mapper
  returning `Option String` (`none` models the constructor throwing).
-/
import Mathlib

namespace SupplierSourcing

/-- JS truthiness of an optional string: `undefined`/`null` and `""` are falsy. -/
def isTruthyStr : Option String → Bool
  | none => false
  | some s => s ≠ ""

/-- `a || b` for an optional string `a` and a string default `b` (JS semantics). -/
def jsOr (a : Option String) (b : String) : String :=
  match a with
  | none => b
  | some s => if s = "" then b else s

/-- ASCII whitespace, modelling the characters matched by JS `\s` / trimmed by
`String.prototype.trim` on the ASCII range. -/
def wsChar (c : Char) : Bool :=
  c = ' ' || c = '\t' || c = '\n' || c = '\r' || c = '\x0b' || c = '\x0c'

/-- `String.prototype.trim`: strip leading and trailing whitespace. -/
def jsTrim (s : String) : String :=
  ⟨((s.data.dropWhile wsChar).reverse.dropWhile wsChar).reverse⟩

/-- `String.prototype.toLowerCase` on the ASCII range: lowercase every
character. -/
def lowerStr (s : String) : String := ⟨s.data.map Char.toLower⟩

/-- Boolean list-prefix test on characters. -/
def isPrefixOfB : List Char → List Char → Bool
  | [], _ => true
  | _ :: _, [] => false
  | a :: as, b :: bs => a == b && isPrefixOfB as bs

/-- Boolean substring (contiguous-infix) test on characters. -/
def isInfixOfB (n : List Char) : List Char → Bool
  | [] => n.isEmpty
  | c :: t => isPrefixOfB n (c :: t) || isInfixOfB n t

/-- `hay.includes(needle)` (JS substring containment). -/
def sincludes (hay needle : String) : Bool := isInfixOfB needle.data hay.data

/-- Characters matched by `[a-z0-9]` (the complement of the split regex
`[^a-z0-9]` applied to a lowercased string). -/
def isAlnumLower (c : Char) : Bool :=
  ('a' ≤ c && c ≤ 'z') || ('0' ≤ c && c ≤ '9')

/-- One step of run-splitting, consuming characters from the right:
accumulate the current run of `[a-z0-9]` characters, closing it at each
non-alphanumeric character. -/
def tokStep (c : Char) (acc : List Char × List (List Char)) :
    List Char × List (List Char) :=
  if isAlnumLower c then (c :: acc.1, acc.2)
  else ([], if acc.1 = [] then acc.2 else acc.1 :: acc.2)

/-- The non-empty maximal runs of `[a-z0-9]` characters, in order: the result
of `s.split(/[^a-z0-9]+/)` minus empty fragments (the source immediately
filters by length `>= 4`, which drops those fragments anyway). -/
def tokenizeChars (l : List Char) : List (List Char) :=
  let r := l.foldr tokStep ([], [])
  if r.1 = [] then r.2 else r.1 :: r.2

/-- Order-preserving first-occurrence deduplication, with an accumulator of
already-seen elements (`[...new Set(xs)]` semantics). -/
def dedupAux (seen : List (List Char)) : List (List Char) → List (List Char)
  | [] => []
  | x :: xs => if x ∈ seen then dedupAux seen xs else x :: dedupAux (x :: seen) xs

/-- `[...new Set(xs)]`: deduplicate keeping the first occurrence of each element. -/
def dedupFirst (l : List (List Char)) : List (List Char) := dedupAux [] l

/-- `requirementKeywords` of `mapResultToSupplier`: lowercase the requirements,
split on runs of non-alphanumeric characters, keep tokens of length `>= 4`. -/
def requirementKeywords (requirements : Option String) : List (List Char) :=
  (tokenizeChars (lowerStr (jsOr requirements "")).data).filter
    (fun w => 4 ≤ w.length)

/-- `uniqueKeywords`: deduplicate (first occurrence) and cap at 8. -/
def uniqueKeywords (requirements : Option String) : List (List Char) :=
  (dedupFirst (requirementKeywords requirements)).take 8

/-- `Math.round` of a rational: round half up (`⌊q + 1/2⌋`). All ratios reaching
`Math.round` in this program are exactly representable as doubles, so exact
rational rounding coincides with the floating-point computation. -/
def jsRound (q : ℚ) : ℤ := ⌊q + 1/2⌋

/-- JS whitespace characters as matched by `\s` in the location regexes. -/
def locClassChar (c : Char) : Bool :=
  ('A' ≤ c && c ≤ 'Z') || ('a' ≤ c && c ≤ 'z') || wsChar c || c = '-'

/-- Leftmost match of the regex `<pat>([A-Za-z\s-]+)` with the `i` flag against
a character list (`pat` given in lowercase): scan for the first position where
`pat` matches case-insensitively and at least one class character follows;
return the greedy capture (in original case). -/
def findLocMatch (pat : List Char) : List Char → Option (List Char)
  | [] => none
  | c :: rest =>
    let cap := ((c :: rest).drop pat.length).takeWhile locClassChar
    if isPrefixOfB pat ((c :: rest).map Char.toLower) && !cap.isEmpty then some cap
    else findLocMatch pat rest

/-- The three location patterns of the source, in order (their fixed lowercase
prefixes; each is followed by the capture group `([A-Za-z\s-]+)`). -/
def locationPatterns : List (List Char) :=
  ["based in ".data, "headquartered in ".data, "located in ".data]

/-- The `for (const pattern of locationPatterns)` loop: for each pattern try
the snippet, then the title; return the first capture found, trying no
further patterns after a match. -/
def tryPatterns : List (List Char) → String → String → Option (List Char)
  | [], _, _ => none
  | p :: ps, s, t =>
    match findLocMatch p s.data with
    | some cap => some cap
    | none =>
      match findLocMatch p t.data with
      | some cap => some cap
      | none => tryPatterns ps s t

/-- A raw search-result item as consumed by the mapper: absent JS fields are
`none`. -/
structure RawItem where
  link : Option String := none
  url : Option String := none
  title : Option String := none
  snippet : Option String := none
  description : Option String := none
deriving Repr, DecidableEq

/-- The normalized supplier record produced by `mapResultToSupplier`. -/
structure SupplierCandidate where
  name : String
  url : String
  displayLink : String
  countryHint : String
  description : String
  tags : List String
  sizeCategory : String
  employees : String
  turnover : String
  location : String
  locationDetail : String
  matchScore : ℕ
  matchSummary : String
deriving Repr, DecidableEq

/-- `const url = item.link || item.url || ""` of the mapper. -/
def itemUrl (item : RawItem) : String := jsOr item.link (jsOr item.url "")

/-- `displayLink` of the mapper: `"unknown"` unless the url is truthy and the
platform URL parser (`parseHost`, modelling `new URL(u).hostname`) succeeds;
`none` from `parseHost` models the constructor throwing into the empty `catch`. -/
def itemDisplayLink (parseHost : String → Option String) (item : RawItem) : String :=
  if itemUrl item = "" then "unknown"
  else
    match parseHost (itemUrl item) with
    | some h => h
    | none => "unknown"

/-- `const title = item.title || displayLink`. -/
def itemTitle (parseHost : String → Option String) (item : RawItem) : String :=
  jsOr item.title (itemDisplayLink parseHost item)

/-- `const snippet = item.snippet || item.description || ""`. -/
def itemSnippet (item : RawItem) : String :=
  jsOr item.snippet (jsOr item.description "")

/-- The tag block of the mapper: independent substring checks against the
lowercased snippet (and requirements), then `tags.push("Web result")` last. -/
def itemTags (item : RawItem) (requirements : Option String) : List String :=
  let lowerSnippet := lowerStr (itemSnippet item)
  let lowerReq := lowerStr (jsOr requirements "")
  ((if sincludes lowerSnippet "iso" then ["ISO / quality"] else []) ++
   (if sincludes lowerSnippet "medical" || sincludes lowerSnippet "pharma" then
     ["Life sciences"] else []) ++
   (if sincludes lowerSnippet "plastic" then ["Plastics"] else []) ++
   (if sincludes lowerSnippet "contract manufacturing" then
     ["Contract manufacturing"] else []) ++
   (if sincludes lowerReq "prototype" || sincludes lowerReq "prototyping" then
     ["Prototyping"] else [])) ++ ["Web result"]

/-- The `employees` field: default instruction string, overwritten when the
snippet mentions `"employees"`. -/
def itemEmployees (item : RawItem) : String :=
  if sincludes (lowerStr (itemSnippet item)) "employees" then
    "Employees mentioned in snippet – confirm on website"
  else "Unknown (check company website / LinkedIn)"

/-- The `sizeCategory` chain of the mapper. The source's final
`else if (sizeCategory === "Unknown")` guard is always true at that point
(nothing has reassigned `sizeCategory`), so it is an unconditional `else`. -/
def itemSizeCategory (item : RawItem) : String :=
  let lowerSnippet := lowerStr (itemSnippet item)
  if sincludes lowerSnippet "small company" || sincludes lowerSnippet "sme" ||
      sincludes lowerSnippet "family-owned" || sincludes lowerSnippet "family owned" then
    "Small / SME (heuristic from snippet)"
  else if sincludes lowerSnippet "multinational" || sincludes lowerSnippet "global leader" ||
      sincludes lowerSnippet "worldwide" || sincludes lowerSnippet "thousands of employees" then
    "Large / multinational (heuristic from snippet)"
  else
    "Not stated – likely small/medium (verify manually)"

/-- The turnover note of the mapper. -/
def itemTurnover (item : RawItem) : String :=
  let lowerSnippet := lowerStr (itemSnippet item)
  if sincludes lowerSnippet "million" || sincludes lowerSnippet "billion" ||
      sincludes lowerSnippet "turnover" || sincludes lowerSnippet "revenue" then
    "Turnover / revenue mentioned in snippet – check original page for figures."
  else "Not stated – check company financials / About page."

/-- The location block of the mapper: `(location, locationDetail)`; defaults
unless one of the ordered patterns matches the snippet or the title. -/
def itemLocation (parseHost : String → Option String) (item : RawItem)
    (country : Option String) : String × String :=
  match tryPatterns locationPatterns (itemSnippet item) (itemTitle parseHost item) with
  | some cap =>
    let captured := jsTrim ⟨cap⟩
    (captured ++ (if isTruthyStr country then ", " ++ jsOr country "" else ""),
     "Appears to be located in " ++ captured ++ " (from snippet/title).")
  | none =>
    (jsOr country "Not specified", "Location not clearly stated in search snippet.")

/-- `matchedKeywords` of the mapper: the kept unique keywords occurring as
substrings of the lowercased snippet. -/
def matchedKeywords (item : RawItem) (requirements : Option String) : List (List Char) :=
  (uniqueKeywords requirements).filter
    (fun k => isInfixOfB k (lowerStr (itemSnippet item)).data)

/-- `matchScore = uniqueKeywords.length > 0 ?
Math.round((matchedKeywords.length / uniqueKeywords.length) * 100) : 0`. -/
def itemMatchScore (item : RawItem) (requirements : Option String) : ℕ :=
  if 0 < (uniqueKeywords requirements).length then
    (jsRound (((matchedKeywords item requirements).length : ℚ) /
      ((uniqueKeywords requirements).length : ℚ) * 100)).toNat
  else 0

/-- The `matchSummary` three-way message of the mapper. -/
def itemMatchSummary (item : RawItem) (requirements : Option String) : String :=
  if (uniqueKeywords requirements).length = 0 then
    "No specific keywords provided – generic supplier match."
  else if itemMatchScore item requirements = 0 then
    "Snippet does not clearly mention your key terms – review manually for fit."
  else
    "Matches approx. " ++ toString (itemMatchScore item requirements) ++
      "% of your key terms: " ++
      String.intercalate ", "
        ((matchedKeywords item requirements).map (fun k => (⟨k⟩ : String))) ++ "."

/-- `mapResultToSupplier(item, country, requirements)` from src/server.js,
assembled from the field computations above (one per `let` block of the
source). `parseHost` models the platform `new URL(u).hostname`. -/
def mapResultToSupplier (parseHost : String → Option String)
    (item : RawItem) (country requirements : Option String) : SupplierCandidate :=
  { name := itemTitle parseHost item
    url := itemUrl item
    displayLink := itemDisplayLink parseHost item
    countryHint := jsOr country "Not specified"
    description := itemSnippet item
    tags := itemTags item requirements
    sizeCategory := itemSizeCategory item
    employees := itemEmployees item
    turnover := itemTurnover item
    location := (itemLocation parseHost item country).1
    locationDetail := (itemLocation parseHost item country).2
    matchScore := itemMatchScore item requirements
    matchSummary := itemMatchSummary item requirements }

/-- `buildQuery(requirements, country, certifications)` from src/server.js. -/
def buildQuery (requirements country certifications : Option String) : String :=
  let base₀ := jsTrim (jsOr requirements "")
  let base₁ := if base₀ = "" then "industrial supplier" else base₀
  let base :=
    if isTruthyStr certifications then base₁ ++ " " ++ jsOr certifications ""
    else base₁
  let query := base ++ " (" ++ "supplier OR manufacturer OR vendor OR B2B" ++ ")"
  if isTruthyStr country then query ++ " in " ++ jsOr country "" else query

/-- The request body of `POST /api/search-suppliers`; absent JSON fields are
`none` (a missing body behaves as the all-`none` record, via `req.body || {}`).
`maxResults` is modelled as an integer. -/
structure SearchRequest where
  requirements : Option String := none
  country : Option String := none
  certifications : Option String := none
  maxResults : Option ℤ := none
deriving Repr, DecidableEq

/-- `num = maxResults && maxResults > 0 ? Math.min(maxResults, 20) : 10`. -/
def effectiveNum (maxResults : Option ℤ) : ℤ :=
  match maxResults with
  | none => 10
  | some m => if m ≠ 0 && m > 0 then min m 20 else 10

/-- The provider's JSON payload: `organic_results` may be absent. -/
structure SerpData where
  organicResults : Option (List RawItem) := none
deriving Repr, DecidableEq

/-- Outcome of the single outbound `fetch`: the promise rejects (network
error), or a response arrives with an HTTP status and a body whose JSON
parse yields `some data` or throws (`none`). -/
inductive FetchOutcome where
  | netError
  | response (status : ℕ) (body : Option SerpData)
deriving Repr, DecidableEq

/-- `response.ok`: status in the range [200, 300). -/
def responseOk (status : ℕ) : Bool := 200 ≤ status && status < 300

/-- Result of the request handler: a 200 JSON array, or an error status with
an error message body. -/
inductive HandlerResult where
  | success (body : List SupplierCandidate)
  | error (status : ℕ) (msg : String)
deriving Repr, DecidableEq

/-- The `POST /api/search-suppliers` handler from src/server.js. Returns the
produced response together with a flag recording whether the outbound `fetch`
was reached. `apiKey` is the `SERPAPI_KEY` environment variable (`none` when
unset), `f` the outcome of the outbound call when it is made. -/
def handleSearch (parseHost : String → Option String) (apiKey : Option String)
    (body : SearchRequest) (f : FetchOutcome) : HandlerResult × Bool :=
  let num := effectiveNum body.maxResults
  if !isTruthyStr apiKey then
    (.error 500 "SerpAPI key not configured on server.", false)
  else
    match f with
    | .netError => (.error 500 "Internal server error", true)
    | .response status d =>
      if !responseOk status then
        (.error 502 ("SerpAPI HTTP error " ++ toString status), true)
      else
        match d with
        | none => (.error 500 "Internal server error", true)
        | some data =>
          let results := data.organicResults.getD []
          let suppliers :=
            ((results.filter (fun r => isTruthyStr r.link)).take num.toNat).map
              (fun item => mapResultToSupplier parseHost item body.country body.requirements)
          (.success suppliers, true)

/- ## Helper lemmas -/

lemma uniqueKeywords_length_le (r : Option String) : (uniqueKeywords r).length ≤ 8 := by
  unfold uniqueKeywords
  rw [List.length_take]
  exact min_le_left _ _

lemma matchedKeywords_length_le (item : RawItem) (r : Option String) :
    (matchedKeywords item r).length ≤ (uniqueKeywords r).length :=
  List.length_filter_le _ _

lemma jsRound_ratio_nonneg (m u : ℕ) : 0 ≤ jsRound ((m : ℚ) / (u : ℚ) * 100) := by
  unfold jsRound
  apply Int.floor_nonneg.mpr
  positivity

lemma jsRound_ratio_le_100 {m u : ℕ} (hmu : m ≤ u) (hu : 0 < u) :
    jsRound ((m : ℚ) / (u : ℚ) * 100) ≤ 100 := by
  unfold jsRound
  have hu' : (0 : ℚ) < u := by exact_mod_cast hu
  have h1 : (m : ℚ) / u ≤ 1 := by
    rw [div_le_one hu']
    exact_mod_cast hmu
  have h2 : (m : ℚ) / u * 100 + 1 / 2 < ((101 : ℤ) : ℚ) := by push_cast; nlinarith
  have := Int.floor_lt.mpr h2
  omega

lemma jsRound_ratio_pos {m u : ℕ} (hm : 0 < m) (hmu : m ≤ u) (hu : u ≤ 200) :
    0 < jsRound ((m : ℚ) / (u : ℚ) * 100) := by
  have hu0 : 0 < u := lt_of_lt_of_le hm hmu
  have hu' : (0 : ℚ) < u := by exact_mod_cast hu0
  unfold jsRound
  have hm' : (1 : ℚ) ≤ m := by exact_mod_cast hm
  have h200 : (u : ℚ) ≤ 200 := by exact_mod_cast hu
  have hhalf : (1 : ℚ) / 2 ≤ (m : ℚ) / u * 100 := by
    rw [div_mul_eq_mul_div, le_div_iff₀ hu']
    nlinarith
  have := Int.le_floor.mpr (show ((1 : ℤ) : ℚ) ≤ (m : ℚ) / u * 100 + 1 / 2 by push_cast; linarith)
  omega

lemma jsRound_zero_num (u : ℕ) : jsRound (((0 : ℕ) : ℚ) / (u : ℚ) * 100) = 0 := by
  unfold jsRound
  norm_num

lemma itemMatchScore_le_100 (item : RawItem) (r : Option String) :
    itemMatchScore item r ≤ 100 := by
  unfold itemMatchScore
  split
  · rename_i hu
    have h := jsRound_ratio_le_100 (matchedKeywords_length_le item r) hu
    omega
  · omega

/- ## Claim theorems -/

/-- C1: the mapper's matchScore is computed from the keyword pipeline
(lowercase, split on runs of non-alphanumerics, keep length-≥4 tokens,
first-occurrence dedup, first 8), with matchedKeywords the kept tokens that
are substrings of the lowercased snippet, and equals
round(100 * matched / unique), or 0 when there are zero qualifying tokens. -/
theorem claim1_matchScore_formula (ph : String → Option String) (item : RawItem)
    (country requirements : Option String) :
    uniqueKeywords requirements =
      (dedupFirst ((tokenizeChars (lowerStr (jsOr requirements "")).data).filter
        (fun w => 4 ≤ w.length))).take 8 ∧
    matchedKeywords item requirements =
      (uniqueKeywords requirements).filter
        (fun k => isInfixOfB k (lowerStr (itemSnippet item)).data) ∧
    (mapResultToSupplier ph item country requirements).matchScore =
      (if uniqueKeywords requirements = [] then 0
       else (jsRound ((100 * ((matchedKeywords item requirements).length : ℚ)) /
         ((uniqueKeywords requirements).length : ℚ))).toNat) := by
  refine ⟨rfl, rfl, ?_⟩
  show itemMatchScore item requirements = _
  unfold itemMatchScore
  rcases eq_or_ne (uniqueKeywords requirements) [] with h | h
  · simp [h]
  · have hl : 0 < (uniqueKeywords requirements).length := List.length_pos.mpr h
    rw [if_pos hl, if_neg h]
    congr 2
    ring

/-- C6: the produced tags list always contains the literal "Web result",
and "Web result" is its last element. -/
theorem claim6_tags_web_result (ph : String → Option String) (item : RawItem)
    (country requirements : Option String) :
    "Web result" ∈ (mapResultToSupplier ph item country requirements).tags ∧
    (mapResultToSupplier ph item country requirements).tags.getLast? =
      some "Web result" := by
  have hproj : (mapResultToSupplier ph item country requirements).tags =
      itemTags item requirements := rfl
  obtain ⟨l, hl⟩ : ∃ l, itemTags item requirements = l ++ ["Web result"] := ⟨_, rfl⟩
  rw [hproj, hl]
  constructor
  · exact List.mem_append_right _ (List.mem_singleton_self _)
  · rw [List.getLast?_append_cons]
    rfl

/-- C10: matchScore is zero exactly when no kept keyword occurs in the
snippet, matchScore is always at most 100, and a single match out of the
full 8 kept keywords already yields 13. -/
theorem claim10_matchScore_zero_iff (ph : String → Option String) (item : RawItem)
    (country requirements : Option String) :
    ((mapResultToSupplier ph item country requirements).matchScore = 0 ↔
      matchedKeywords item requirements = []) ∧
    (mapResultToSupplier ph item country requirements).matchScore ≤ 100 ∧
    ((uniqueKeywords requirements).length = 8 →
      (matchedKeywords item requirements).length = 1 →
      (mapResultToSupplier ph item country requirements).matchScore = 13) := by
  have hproj : (mapResultToSupplier ph item country requirements).matchScore =
      itemMatchScore item requirements := rfl
  rw [hproj]
  refine ⟨?_, itemMatchScore_le_100 item requirements, ?_⟩
  · unfold itemMatchScore
    split
    · rename_i hu
      constructor
      · intro h0
        by_contra hne
        have hm : 0 < (matchedKeywords item requirements).length :=
          List.length_pos.mpr hne
        have := jsRound_ratio_pos hm (matchedKeywords_length_le item requirements)
          (le_trans (uniqueKeywords_length_le requirements) (by norm_num))
        omega
      · intro h0
        rw [h0]
        simp only [List.length_nil]
        rw [jsRound_zero_num]
        rfl
    · rename_i hu
      have : (uniqueKeywords requirements).length = 0 := by omega
      have huniq : uniqueKeywords requirements = [] := List.length_eq_zero.mp this
      constructor
      · intro _
        unfold matchedKeywords
        rw [huniq]
        rfl
      · intro _
        rfl
  · intro h8 h1
    unfold itemMatchScore
    rw [h8, h1, if_pos (by norm_num)]
    have hval : ((1 : ℕ) : ℚ) / ((8 : ℕ) : ℚ) * 100 + 1 / 2 = ((13 : ℤ) : ℚ) := by
      push_cast
      norm_num
    unfold jsRound
    rw [hval, Int.floor_intCast]
    rfl

/-- C5: sizeCategory is a single-branch priority heuristic (small/SME signals
first, then multinational signals, else the default), and the employees field
depends only on the snippet containing "employees", independently of that
branch. -/
theorem claim5_size_and_employees (ph : String → Option String) (item : RawItem)
    (country requirements : Option String) :
    ((sincludes (lowerStr (itemSnippet item)) "small company" ||
      sincludes (lowerStr (itemSnippet item)) "sme" ||
      sincludes (lowerStr (itemSnippet item)) "family-owned" ||
      sincludes (lowerStr (itemSnippet item)) "family owned") = true →
      (mapResultToSupplier ph item country requirements).sizeCategory =
        "Small / SME (heuristic from snippet)") ∧
    ((sincludes (lowerStr (itemSnippet item)) "small company" ||
      sincludes (lowerStr (itemSnippet item)) "sme" ||
      sincludes (lowerStr (itemSnippet item)) "family-owned" ||
      sincludes (lowerStr (itemSnippet item)) "family owned") = false →
     (sincludes (lowerStr (itemSnippet item)) "multinational" ||
      sincludes (lowerStr (itemSnippet item)) "global leader" ||
      sincludes (lowerStr (itemSnippet item)) "worldwide" ||
      sincludes (lowerStr (itemSnippet item)) "thousands of employees") = true →
      (mapResultToSupplier ph item country requirements).sizeCategory =
        "Large / multinational (heuristic from snippet)") ∧
    ((sincludes (lowerStr (itemSnippet item)) "small company" ||
      sincludes (lowerStr (itemSnippet item)) "sme" ||
      sincludes (lowerStr (itemSnippet item)) "family-owned" ||
      sincludes (lowerStr (itemSnippet item)) "family owned") = false →
     (sincludes (lowerStr (itemSnippet item)) "multinational" ||
      sincludes (lowerStr (itemSnippet item)) "global leader" ||
      sincludes (lowerStr (itemSnippet item)) "worldwide" ||
      sincludes (lowerStr (itemSnippet item)) "thousands of employees") = false →
      (mapResultToSupplier ph item country requirements).sizeCategory =
        "Not stated – likely small/medium (verify manually)") ∧
    (mapResultToSupplier ph item country requirements).employees =
      (if sincludes (lowerStr (itemSnippet item)) "employees" then
        "Employees mentioned in snippet – confirm on website"
       else "Unknown (check company website / LinkedIn)") := by
  have hs : (mapResultToSupplier ph item country requirements).sizeCategory =
      itemSizeCategory item := rfl
  have he : (mapResultToSupplier ph item country requirements).employees =
      itemEmployees item := rfl
  refine ⟨fun h1 => ?_, fun h1 h2 => ?_, fun h1 h2 => ?_, ?_⟩
  · rw [hs]; simp [itemSizeCategory, h1]
  · rw [hs]; simp [itemSizeCategory, h1, h2]
  · rw [hs]; simp [itemSizeCategory, h1, h2]
  · rw [he]; rfl

/-- C5 witness: concrete snippets exercising each branch and the independent
employees field. -/
theorem claim5_witness :
    (mapResultToSupplier (fun _ => none)
      { snippet := some "family owned, thousands of employees" } none none).sizeCategory =
      "Small / SME (heuristic from snippet)" ∧
    (mapResultToSupplier (fun _ => none)
      { snippet := some "a worldwide group" } none none).sizeCategory =
      "Large / multinational (heuristic from snippet)" ∧
    (mapResultToSupplier (fun _ => none) {} none none).sizeCategory =
      "Not stated – likely small/medium (verify manually)" ∧
    (mapResultToSupplier (fun _ => none)
      { snippet := some "family owned, thousands of employees" } none none).employees =
      "Employees mentioned in snippet – confirm on website" := by
  refine ⟨?_, ?_, ?_, ?_⟩
  · exact (claim5_size_and_employees (fun _ => none)
      { snippet := some "family owned, thousands of employees" } none none).1 (by decide)
  · exact (claim5_size_and_employees (fun _ => none)
      { snippet := some "a worldwide group" } none none).2.1 (by decide) (by decide)
  · exact (claim5_size_and_employees (fun _ => none) {} none none).2.2.1
      (by decide) (by decide)
  · have h := (claim5_size_and_employees (fun _ => none)
      { snippet := some "family owned, thousands of employees" } none none).2.2.2
    rw [h]
    decide

/-- C7: when link and url are both absent, or when the URL parser fails on the
resolved url, displayLink is the sentinel "unknown"; the mapper is a total
function, so the failure never escapes. -/
theorem claim7_displayLink_unknown (ph : String → Option String) (item : RawItem)
    (country requirements : Option String) :
    (item.link = none → item.url = none →
      (mapResultToSupplier ph item country requirements).displayLink = "unknown") ∧
    (ph (itemUrl item) = none →
      (mapResultToSupplier ph item country requirements).displayLink = "unknown") := by
  have hd : (mapResultToSupplier ph item country requirements).displayLink =
      itemDisplayLink ph item := rfl
  constructor
  · intro h1 h2
    rw [hd]
    unfold itemDisplayLink itemUrl
    rw [h1, h2]
    rfl
  · intro h
    rw [hd]
    unfold itemDisplayLink
    split
    · rfl
    · rw [h]

/-- C7 witness: an item with no link/url, and an item whose url the parser
rejects, both map to displayLink = "unknown". -/
theorem claim7_witness :
    ({} : RawItem).link = none ∧ ({} : RawItem).url = none ∧
    (mapResultToSupplier (fun _ => none) {} none none).displayLink = "unknown" ∧
    (fun _ => (none : Option String)) (itemUrl { link := some "not a url" }) = none ∧
    (mapResultToSupplier (fun _ => none) { link := some "not a url" } none
      none).displayLink = "unknown" := by
  refine ⟨rfl, rfl, ?_, rfl, ?_⟩
  · exact (claim7_displayLink_unknown (fun _ => none) {} none none).1 rfl rfl
  · exact (claim7_displayLink_unknown (fun _ => none) { link := some "not a url" }
      none none).2 rfl

/-- C10 witness: eight unique keywords with exactly one matching the snippet
yield matchScore 13. -/
theorem claim10_witness :
    (uniqueKeywords (some "alpha bravo charl delta echos foxtr golfs hotel")).length = 8 ∧
    (matchedKeywords { snippet := some "alpha" }
      (some "alpha bravo charl delta echos foxtr golfs hotel")).length = 1 ∧
    (mapResultToSupplier (fun _ => none) { snippet := some "alpha" } none
      (some "alpha bravo charl delta echos foxtr golfs hotel")).matchScore = 13 := by
  refine ⟨by decide, by decide, ?_⟩
  exact (claim10_matchScore_zero_iff (fun _ => none) { snippet := some "alpha" } none
    (some "alpha bravo charl delta echos foxtr golfs hotel")).2.2 (by decide) (by decide)

/-- C8: buildQuery is total and structurally equal to base (with the
"industrial supplier" fallback for blank requirements), followed by the
optional certifications, the fixed parenthesized disjunction, and the
optional country clause; the result is never empty, and ends with
" in country" when a country is given. -/
theorem claim8_buildQuery (requirements country certifications : Option String) :
    buildQuery requirements country certifications =
      (if jsTrim (jsOr requirements "") = "" then "industrial supplier"
       else jsTrim (jsOr requirements "")) ++
      (if isTruthyStr certifications then " " ++ jsOr certifications "" else "") ++
      " (supplier OR manufacturer OR vendor OR B2B)" ++
      (if isTruthyStr country then " in " ++ jsOr country "" else "") ∧
    buildQuery requirements country certifications ≠ "" ∧
    (isTruthyStr country = true →
      List.IsSuffix (" in " ++ jsOr country "").data
        (buildQuery requirements country certifications).data) := by
  have hemp : ("" : String).data = [] := rfl
  have disjChunk : ∀ X : List Char,
      " (".data ++ ("supplier OR manufacturer OR vendor OR B2B".data ++ (")".data ++ X)) =
      " (supplier OR manufacturer OR vendor OR B2B)".data ++ X := by
    intro X
    rw [← List.append_assoc, ← List.append_assoc]
    congr 1
  have disjChunkNil :
      " (".data ++ ("supplier OR manufacturer OR vendor OR B2B".data ++ ")".data) =
      " (supplier OR manufacturer OR vendor OR B2B)".data := by
    rw [← List.append_assoc]
    rfl
  have heq : buildQuery requirements country certifications =
      (if jsTrim (jsOr requirements "") = "" then "industrial supplier"
       else jsTrim (jsOr requirements "")) ++
      (if isTruthyStr certifications then " " ++ jsOr certifications "" else "") ++
      " (supplier OR manufacturer OR vendor OR B2B)" ++
      (if isTruthyStr country then " in " ++ jsOr country "" else "") := by
    unfold buildQuery
    cases hc : isTruthyStr certifications <;> cases hk : isTruthyStr country <;>
      simp only [Bool.false_eq_true, if_false, if_true, ite_false, ite_true] <;>
      (apply String.ext
       simp only [String.data_append, List.append_assoc, hemp, List.append_nil,
         List.nil_append]
       try rw [disjChunk]
       try rw [disjChunkNil]
       try rfl)
  refine ⟨heq, ?_, ?_⟩
  · intro h0
    have hlen : (buildQuery requirements country certifications).length = 0 := by
      rw [h0]; rfl
    rw [heq] at hlen
    simp only [String.length_append] at hlen
    have h44 : (" (supplier OR manufacturer OR vendor OR B2B)" : String).length = 44 := by
      decide
    omega
  · intro hc
    refine ⟨((if jsTrim (jsOr requirements "") = "" then "industrial supplier"
        else jsTrim (jsOr requirements "")) ++
      (if isTruthyStr certifications then " " ++ jsOr certifications "" else "") ++
      " (supplier OR manufacturer OR vendor OR B2B)").data, ?_⟩
    rw [heq]
    simp [hc, String.data_append, List.append_assoc]

/-- C8 witness: blank requirements, a certification and a country produce the
expected structured query, which is non-empty and ends with the country
clause. -/
theorem claim8_witness :
    buildQuery (some "   ") (some "Germany") (some "ISO 9001") =
      "industrial supplier ISO 9001 (supplier OR manufacturer OR vendor OR B2B) in Germany" ∧
    buildQuery (some "   ") (some "Germany") (some "ISO 9001") ≠ "" ∧
    List.IsSuffix (" in " ++ jsOr (some "Germany") "").data
      (buildQuery (some "   ") (some "Germany") (some "ISO 9001")).data := by
  have h := claim8_buildQuery (some "   ") (some "Germany") (some "ISO 9001")
  refine ⟨?_, h.2.1, h.2.2 (by decide)⟩
  rw [h.1]
  decide

/-- C2: the handler's three failure responses: 500 with the configuration
message (and no outbound request) when the credential is missing or empty,
502 embedding the upstream status on a non-success provider response, and
500 "Internal server error" on any other exception (network failure or a
malformed response body). -/
theorem claim2_error_responses (ph : String → Option String) (key : Option String)
    (body : SearchRequest) (f : FetchOutcome) (s : ℕ) (d : Option SerpData) :
    (isTruthyStr key = false →
      handleSearch ph key body f =
        (.error 500 "SerpAPI key not configured on server.", false)) ∧
    (isTruthyStr key = true → responseOk s = false →
      handleSearch ph key body (.response s d) =
        (.error 502 ("SerpAPI HTTP error " ++ toString s), true)) ∧
    (isTruthyStr key = true →
      handleSearch ph key body .netError =
        (.error 500 "Internal server error", true)) ∧
    (isTruthyStr key = true → responseOk s = true →
      handleSearch ph key body (.response s none) =
        (.error 500 "Internal server error", true)) := by
  refine ⟨fun h => ?_, fun h hs => ?_, fun h => ?_, fun h hs => ?_⟩
  · simp [handleSearch, h]
  · simp [handleSearch, h, hs]
  · simp [handleSearch, h]
  · simp [handleSearch, h, hs]

/-- C2 witness: a missing key yields the configuration 500 without fetching;
with a key, upstream 503 yields the 502 message containing "503", and a
network error or unparsable body yields the generic 500. -/
theorem claim2_witness :
    handleSearch (fun _ => none) none {} .netError =
      (.error 500 "SerpAPI key not configured on server.", false) ∧
    handleSearch (fun _ => none) (some "k") {} (.response 503 none) =
      (.error 502 "SerpAPI HTTP error 503", true) ∧
    handleSearch (fun _ => none) (some "k") {} .netError =
      (.error 500 "Internal server error", true) ∧
    handleSearch (fun _ => none) (some "k") {} (.response 200 none) =
      (.error 500 "Internal server error", true) := by
  refine ⟨?_, ?_, ?_, ?_⟩
  · exact (claim2_error_responses (fun _ => none) none {} .netError 503 none).1 (by decide)
  · exact (claim2_error_responses (fun _ => none) (some "k") {} .netError 503
      none).2.1 (by decide) (by decide)
  · exact (claim2_error_responses (fun _ => none) (some "k") {} .netError 503
      none).2.2.1 (by decide)
  · exact (claim2_error_responses (fun _ => none) (some "k") {} .netError 200
      none).2.2.2 (by decide) (by decide)

/-- C3: the effective result count is 10 when maxResults is absent or ≤ 0,
maxResults itself on (0, 20], and 20 above 20; on success the handler filters
out items lacking a link, truncates to num, and maps the rest through the
mapper in provider order. -/
theorem claim3_num_and_success (ph : String → Option String) (key : Option String)
    (body : SearchRequest) (s : ℕ) (data : SerpData) :
    effectiveNum none = 10 ∧
    (∀ m : ℤ, m ≤ 0 → effectiveNum (some m) = 10) ∧
    (∀ m : ℤ, 0 < m → m ≤ 20 → effectiveNum (some m) = m) ∧
    (∀ m : ℤ, 20 < m → effectiveNum (some m) = 20) ∧
    (isTruthyStr key = true → responseOk s = true →
      handleSearch ph key body (.response s (some data)) =
        (.success
          ((((data.organicResults.getD []).filter (fun r => isTruthyStr r.link)).take
              (effectiveNum body.maxResults).toNat).map
            (fun item => mapResultToSupplier ph item body.country body.requirements)),
         true)) := by
  refine ⟨rfl, ?_, ?_, ?_, ?_⟩
  · intro m hm
    simp only [effectiveNum, Bool.and_eq_true, decide_eq_true_eq]
    rw [if_neg (by omega)]
  · intro m h1 h2
    simp only [effectiveNum, Bool.and_eq_true, decide_eq_true_eq]
    rw [if_pos ⟨by omega, h1⟩]
    omega
  · intro m h
    simp only [effectiveNum, Bool.and_eq_true, decide_eq_true_eq]
    rw [if_pos ⟨by omega, by omega⟩]
    omega
  · intro hk hs
    simp [handleSearch, hk, hs]

/-- C3 witness: concrete counts at -5, 0, 7, 25 and absent, and a concrete
success run keeping only the first linked item. -/
theorem claim3_witness :
    effectiveNum (some (-5)) = 10 ∧ effectiveNum (some 0) = 10 ∧
    effectiveNum (some 7) = 7 ∧ effectiveNum (some 25) = 20 ∧
    effectiveNum none = 10 ∧
    handleSearch (fun _ => none) (some "k") { maxResults := some 1 }
        (.response 200 (some { organicResults := some (
          [{ link := some "https://a.com" }, { link := some "https://b.com" }]) })) =
      (.success [mapResultToSupplier (fun _ => none)
        { link := some "https://a.com" } none none], true) := by
  have h := claim3_num_and_success (fun _ => none) (some "k") { maxResults := some 1 }
    200 { organicResults := some (
      [{ link := some "https://a.com" }, { link := some "https://b.com" }]) }
  refine ⟨h.2.1 (-5) (by norm_num), h.2.1 0 (by norm_num),
    h.2.2.1 7 (by norm_num) (by norm_num), h.2.2.2.1 25 (by norm_num), h.1, ?_⟩
  have h5 := h.2.2.2.2 (by decide) (by decide)
  rw [h5]
  rfl

/-- C4: the three location patterns are tried in order against the snippet and
then the title, stopping at the first successful match; on a match, location
is the trimmed capture with an optional country suffix and locationDetail the
corresponding message; with no match both keep their defaults. -/
theorem claim4_location (ph : String → Option String) (item : RawItem)
    (country requirements : Option String) (p : List Char) (ps : List (List Char))
    (s t : String) (cap : List Char) :
    (findLocMatch p s.data = some cap → tryPatterns (p :: ps) s t = some cap) ∧
    (findLocMatch p s.data = none → findLocMatch p t.data = some cap →
      tryPatterns (p :: ps) s t = some cap) ∧
    (findLocMatch p s.data = none → findLocMatch p t.data = none →
      tryPatterns (p :: ps) s t = tryPatterns ps s t) ∧
    (tryPatterns locationPatterns (itemSnippet item) (itemTitle ph item) = none →
      (mapResultToSupplier ph item country requirements).location =
        jsOr country "Not specified" ∧
      (mapResultToSupplier ph item country requirements).locationDetail =
        "Location not clearly stated in search snippet.") ∧
    (tryPatterns locationPatterns (itemSnippet item) (itemTitle ph item) = some cap →
      (mapResultToSupplier ph item country requirements).location =
        jsTrim ⟨cap⟩ ++ (if isTruthyStr country then ", " ++ jsOr country "" else "") ∧
      (mapResultToSupplier ph item country requirements).locationDetail =
        "Appears to be located in " ++ jsTrim ⟨cap⟩ ++ " (from snippet/title).") := by
  have hl1 : (mapResultToSupplier ph item country requirements).location =
      (itemLocation ph item country).1 := rfl
  have hl2 : (mapResultToSupplier ph item country requirements).locationDetail =
      (itemLocation ph item country).2 := rfl
  refine ⟨fun h => ?_, fun h1 h2 => ?_, fun h1 h2 => ?_, fun h => ⟨?_, ?_⟩,
    fun h => ⟨?_, ?_⟩⟩
  · simp [tryPatterns, h]
  · simp [tryPatterns, h1, h2]
  · simp [tryPatterns, h1, h2]
  · rw [hl1]; unfold itemLocation; rw [h]
  · rw [hl2]; unfold itemLocation; rw [h]
  · rw [hl1]; unfold itemLocation; rw [h]
  · rw [hl2]; unfold itemLocation; rw [h]

/-- C4 witness: "based in Ohio" in the snippet is found by the first pattern,
producing location "Ohio, USA" and the corresponding detail message; an item
with no matching text keeps the defaults. -/
theorem claim4_witness :
    findLocMatch "based in ".data "It is based in Ohio".data = some "Ohio".data ∧
    tryPatterns ("based in ".data ::
      ["headquartered in ".data, "located in ".data]) "It is based in Ohio" "T" =
      some "Ohio".data ∧
    (mapResultToSupplier (fun _ => none) { snippet := some "It is based in Ohio" }
      (some "USA") none).location = "Ohio, USA" ∧
    (mapResultToSupplier (fun _ => none) { snippet := some "It is based in Ohio" }
      (some "USA") none).locationDetail =
      "Appears to be located in Ohio (from snippet/title)." ∧
    (mapResultToSupplier (fun _ => none) {} none none).location = "Not specified" := by
  have hf : findLocMatch "based in ".data "It is based in Ohio".data =
      some "Ohio".data := by decide
  have htp : tryPatterns locationPatterns
      (itemSnippet { snippet := some "It is based in Ohio" })
      (itemTitle (fun _ => none) { snippet := some "It is based in Ohio" }) =
      some "Ohio".data := by decide
  have htp0 : tryPatterns locationPatterns (itemSnippet {})
      (itemTitle (fun _ => none) {}) = none := by decide
  have hm := (claim4_location (fun _ => none) { snippet := some "It is based in Ohio" }
    (some "USA") none "based in ".data
    ["headquartered in ".data, "located in ".data] "It is based in Ohio" "T"
    "Ohio".data).2.2.2.2 htp
  refine ⟨hf, ?_, ?_, ?_, ?_⟩
  · exact (claim4_location (fun _ => none) {} none none "based in ".data
      ["headquartered in ".data, "located in ".data] "It is based in Ohio" "T"
      "Ohio".data).1 hf
  · rw [hm.1]; decide
  · rw [hm.2]; decide
  · exact ((claim4_location (fun _ => none) {} none none "based in ".data
      ["headquartered in ".data, "located in ".data] "It is based in Ohio" "T"
      "Ohio".data).2.2.2.1 htp0).1

/-- C9: every candidate in a successful response comes from an item with a
truthy link, its url field equals that link's value, and is non-empty; the
mapper's url fallback and the empty-url displayLink path are therefore never
exercised through the endpoint. -/
theorem claim9_success_urls (ph : String → Option String) (key : Option String)
    (body : SearchRequest) (s : ℕ) (data : SerpData) (sups : List SupplierCandidate)
    (fetched : Bool) :
    isTruthyStr key = true → responseOk s = true →
    handleSearch ph key body (.response s (some data)) = (.success sups, fetched) →
    ∀ cand ∈ sups, ∃ item v, item.link = some v ∧ v ≠ "" ∧
      cand = mapResultToSupplier ph item body.country body.requirements ∧
      cand.url = v := by
  intro hk hs heq cand hc
  have hrun : handleSearch ph key body (.response s (some data)) =
      (.success ((((data.organicResults.getD []).filter
          (fun r => isTruthyStr r.link)).take
          (effectiveNum body.maxResults).toNat).map
        (fun item => mapResultToSupplier ph item body.country body.requirements)),
       true) := by
    simp [handleSearch, hk, hs]
  rw [hrun] at heq
  simp only [Prod.mk.injEq, HandlerResult.success.injEq] at heq
  obtain ⟨hsups, -⟩ := heq
  subst hsups
  rcases List.mem_map.mp hc with ⟨item, hmem, rfl⟩
  have hfil : item ∈ (data.organicResults.getD []).filter
      (fun r => isTruthyStr r.link) := List.mem_of_mem_take hmem
  have hp : isTruthyStr item.link = true := (List.mem_filter.mp hfil).2
  cases hl : item.link with
  | none =>
    rw [hl] at hp
    exact absurd hp (by simp [isTruthyStr])
  | some v =>
    have hv : v ≠ "" := by
      intro hv0
      rw [hl, hv0] at hp
      simp [isTruthyStr] at hp
    refine ⟨item, v, hl, hv, rfl, ?_⟩
    show itemUrl item = v
    unfold itemUrl
    rw [hl]
    simp [jsOr, hv]

/-- C9 witness: a concrete successful run whose single candidate carries the
item's non-empty link as its url. -/
theorem claim9_witness :
    ∃ item v, item.link = some v ∧ v ≠ "" ∧
      mapResultToSupplier (fun _ => none) { link := some "https://a.com" } none none =
        mapResultToSupplier (fun _ => none) item none none ∧
      (mapResultToSupplier (fun _ => none)
        { link := some "https://a.com" } none none).url = v := by
  have hrun : handleSearch (fun _ => none) (some "k") {}
      (.response 200 (some { organicResults := some (
        [{ link := some "https://a.com" }, { url := some "x" }]) })) =
      (.success [mapResultToSupplier (fun _ => none)
        { link := some "https://a.com" } none none], true) := rfl
  exact claim9_success_urls (fun _ => none) (some "k") {} 200
    { organicResults := some ([{ link := some "https://a.com" }, { url := some "x" }]) }
    [mapResultToSupplier (fun _ => none) { link := some "https://a.com" } none none]
    true rfl rfl hrun
    (mapResultToSupplier (fun _ => none) { link := some "https://a.com" } none none)
    (List.mem_singleton_self _)

end SupplierSourcing
